import Mathlib

/-!
Verification of the channeltalk-monitor repository (src/main.py and
src/server.py) against its natural-language specification.

The development shallowly embeds the two Python monitor classes:

* `ChannelMon` models `ChannelTalkMonitor` from src/main.py.  Redis keys and
  the in-memory dictionaries are modelled as fields of a `State` record:
  the set `unanswered_chats` as `pendingList`, the keys `chat:{id}` as
  `redisChat`, the sets `chat:{id}:messages` as `redisMsgs`, the dictionaries
  `self.chat_cache` / `self.chat_messages` as `chatCache` / `chatMessages`,
  the hashes `stats:total` / `stats:today` as the four counters, and the
  hashes `ranking:daily` (restricted to today's keys) / `ranking:total` as
  `rankDaily` / `rankTotal`.  WebSocket broadcasts are returned as an output
  list instead of being sent.  Timestamps are integer epoch seconds; the
  Python falsiness checks (`if not x`) on strings are modelled with the
  empty string and on timestamps with `0`.  The md5 message fingerprint of
  `save_chat` is modelled as the hashed pair (lastMessage, timestamp)
  itself.  The Channel Open API branches are modelled with the code's
  default configuration `CHANNEL_API_KEY = ''` (unset), under which every
  API call is skipped and `manager_cache` is never populated by `setup`;
  the cache is still carried as a field because the extraction code reads
  it.  The write-only sorted set `chats_by_time` and the session counters
  `self.stats` (surfaced only by /health) are not tracked.

* `ChannelMon.Server` models the `ChannelTalkMonitor` variant from
  src/server.py (single chat store, no de-duplication, no statistics).
-/

namespace ChannelMon

/-- Pointwise update of a string-keyed map, modelling a Redis SET/DEL or a
Python dict assignment/deletion at one key. -/
def upd {α : Type} (f : String → α) (k : String) (v : α) : String → α :=
  fun x => if x = k then v else f x

/-- Models the Python expression `a or b` on strings, where the empty string
is falsy. -/
def strOr (a b : String) : String := if a = "" then b else a

/-- Python `str.lower()` as used on manager names (ASCII case folding,
e.g. for the `'bot'` comparison); written over the character list so that
it evaluates by kernel reduction. -/
def lowerStr (s : String) : String := ⟨s.data.map Char.toLower⟩

/-- Python `str.upper()` as used by the token check of src/server.py. -/
def upperStr (s : String) : String := ⟨s.data.map Char.toUpper⟩

/-- Python truthiness of an optional string (`None` and `''` are falsy). -/
def optTruthy (o : Option String) : Bool :=
  match o with
  | none => false
  | some s => if s = "" then false else true

/-- The chat record built by `process_message` and stored by `save_chat`
(src/main.py lines 1055-1070).  The empty string stands for a missing
(`None`) value. -/
structure ChatData where
  id : String
  customerName : String
  lastMessage : String
  timestamp : Int
  channel : String
  tags : List String
  assignee : String
  assigneeId : String
  team : String
deriving DecidableEq

/-- A message sent over the WebSocket fan-out by src/main.py.  The `total`
field of the JSON payload (`len(self.chat_cache)`) is not tracked. -/
inductive BMsg where
  | newChat (chat : ChatData)
  | chatAnswered (chatId : String) (manager : Option String)
deriving DecidableEq

/-- The state of `ChannelTalkMonitor` from src/main.py together with the
Redis keys it owns (see the module docstring for the field dictionary). -/
structure State where
  pendingList : List String
  redisChat : String → Option ChatData
  redisMsgs : String → List (String × Int)
  chatCache : String → Option ChatData
  chatMessages : String → Option (List (String × Int))
  managerCache : String → Option String
  receivedTotal : Nat
  receivedToday : Nat
  answeredTotal : Nat
  answeredToday : Nat
  rankDaily : String → Nat
  rankTotal : String → Nat

/-- The monitor's state right after `setup` against an empty Redis. -/
def monInit : State :=
  { pendingList := []
    redisChat := fun _ => none
    redisMsgs := fun _ => []
    chatCache := fun _ => none
    chatMessages := fun _ => none
    managerCache := fun _ => none
    receivedTotal := 0
    receivedToday := 0
    answeredTotal := 0
    answeredToday := 0
    rankDaily := fun _ => 0
    rankTotal := fun _ => 0 }

/-- Increment of a counter hash field (`hincrby`). -/
def bump (f : String → Nat) (k : String) : String → Nat :=
  fun x => if x = k then f x + 1 else f x

/-- `save_chat` (src/main.py lines 664-733): duplicate-message check against
the per-conversation hash set (loading it from Redis on a cache miss),
then atomic store of the chat data, index update, statistics update and a
`new_chat` broadcast. -/
def save_chat (s : State) (d : ChatData) : State × List BMsg :=
  let c := d.id
  let h : String × Int := (d.lastMessage, d.timestamp)
  let s1 :=
    match s.chatMessages c with
    | some _ => s
    | none => { s with chatMessages := upd s.chatMessages c (some (s.redisMsgs c)) }
  let known := (s1.chatMessages c).getD []
  if h ∈ known then (s1, [])
  else
    let d1 := { d with
      assignee := if d.assignee = "" then "미배정" else d.assignee
      team := if d.team = "" then "미배정" else d.team }
    ({ s1 with
        redisMsgs := upd s1.redisMsgs c (if h ∈ s1.redisMsgs c then s1.redisMsgs c else h :: s1.redisMsgs c)
        chatMessages := upd s1.chatMessages c (some (h :: known))
        redisChat := upd s1.redisChat c (some d1)
        pendingList := if c ∈ s1.pendingList then s1.pendingList else c :: s1.pendingList
        chatCache := upd s1.chatCache c (some d1)
        receivedTotal := s1.receivedTotal + 1
        receivedToday := s1.receivedToday + 1 },
      [BMsg.newChat d1])

/-- The ranking-update condition of `remove_chat` (src/main.py lines
754-763): the answering manager is named, is not a bot, and either no
assignee is recorded or the manager differs from the assignee. -/
def incrCond (managerName assignee : Option String) : Prop :=
  managerName.getD "" ≠ "" ∧ lowerStr (managerName.getD "") ≠ "bot" ∧
    (optTruthy assignee = false ∨ (optTruthy assignee = true ∧ managerName.getD "" ≠ assignee.getD ""))

instance (m a : Option String) : Decidable (incrCond m a) := by
  unfold incrCond; infer_instance

/-- `remove_chat` (src/main.py lines 735-795): unconditional pipeline delete
of the Redis keys, statistics and conditional ranking update (skipped when
`cleanup`), then — only when the `srem` on `unanswered_chats` removed a
member — deletion of the in-memory cache entries and a `chat_answered`
broadcast. -/
def remove_chat (s : State) (chatId : String) (managerName assignee : Option String)
    (cleanup : Bool) : State × List BMsg :=
  let wasMember := chatId ∈ s.pendingList
  let s1 := { s with
    redisChat := upd s.redisChat chatId none
    redisMsgs := upd s.redisMsgs chatId []
    pendingList := s.pendingList.erase chatId }
  let s2 :=
    if cleanup then s1
    else
      let s1a := { s1 with answeredTotal := s1.answeredTotal + 1, answeredToday := s1.answeredToday + 1 }
      if incrCond managerName assignee then
        { s1a with
            rankDaily := bump s1a.rankDaily (managerName.getD "")
            rankTotal := bump s1a.rankTotal (managerName.getD "") }
      else s1a
  if wasMember then
    ({ s2 with
        chatCache := upd s2.chatCache chatId none
        chatMessages := upd s2.chatMessages chatId none },
      [BMsg.chatAnswered chatId (if cleanup then none else managerName)])
  else (s2, [])

/-- The `TEAMS` table of src/main.py lines 63-69. -/
def TEAMS : List (String × List String) :=
  [("SNS 1팀", ["이종민", "정주연", "이혜영", "김국현", "정다혜", "조시현", "김시윤"]),
   ("SNS 2팀", ["윤도우리", "신혜서", "김상아", "박은진", "오민환", "서정국"]),
   ("SNS 3팀", ["김진후", "김시진", "권재현", "김지원", "최호익", "김진협", "박해영"]),
   ("SNS 4팀", ["이민주", "전지윤", "전미란", "김채영", "김영진", "공현준"]),
   ("의정부 SNS팀", ["차정환", "최수능", "구본영", "서민국", "오민경", "김범주", "동수진", "성일훈"])]

/-- The `MEMBER_TO_TEAM` lookup (src/main.py lines 72-75); the empty string
models absence from the dictionary. -/
def memberToTeam (n : String) : String :=
  match TEAMS.find? (fun t => t.2.contains n) with
  | some t => t.1
  | none => ""

/-- A manager/assignee reference object occurring in webhook `refers`
payloads.  The empty string stands for a missing field. -/
structure PersonRef where
  id : String
  name : String
  displayName : String
  username : String
deriving DecidableEq

/-- The `refers.user` object of a webhook payload. -/
structure UserRef where
  name : String
  username : String
  profileName : String
deriving DecidableEq

/-- The `refers.userChat` object of a webhook payload. -/
structure UserChatRef where
  name : String
  assigneeId : String
  managerIds : List String
  assignee : Option PersonRef
  tags : List String
deriving DecidableEq

/-- The `refers` object of a webhook payload; `none` models an absent (or
empty, hence falsy) sub-object and `channelName` models
`refers.channel.name`. -/
structure Refers where
  user : Option UserRef
  userChat : Option UserChatRef
  assignee : Option PersonRef
  managers : List PersonRef
  manager : Option PersonRef
  channelName : String
deriving DecidableEq

/-- A `refers` object with every part missing. -/
def emptyRefers : Refers :=
  { user := none, userChat := none, assignee := none, managers := [], manager := none,
    channelName := "" }

/-- The `entity` object of a `message` webhook event.  `createdAt = 0`
models a missing (falsy) timestamp, the empty string a missing text or
identifier. -/
structure MsgEntity where
  chatId : String
  personType : String
  plainText : String
  createdAt : Int
  assigneeId : String
deriving DecidableEq

/-- The `entity` object of a `userChat` webhook event. -/
structure UserChatEntity where
  id : String
  state : String
  assigneeId : String
  managerIds : List String
deriving DecidableEq

/-- Name resolution `x.get('name') or x.get('displayName')` used for
assignee objects and manager list entries. -/
def refName (p : PersonRef) : String := strOr p.name p.displayName

/-- Lookup of a manager by id in `refers.managers` returning
`name or displayName` (the empty string when not found or unnamed). -/
def findManagerName (managers : List PersonRef) (mid : String) : String :=
  match managers.find? (fun m => m.id == mid) with
  | some m => refName m
  | none => ""

/-- The assignee-extraction cascade of the customer-message branch of
`process_message` (src/main.py lines 964-1028, steps 1-7).  The API lookup
of step at line 1031 is skipped because `CHANNEL_API_KEY` is unset in the
modelled configuration.  Returns (name, id, team) with the empty string for
a still-missing value. -/
def extractAssigneeUser (e : MsgEntity) (r : Refers) (mc : String → Option String) :
    String × String × String :=
  let aId1 := match r.userChat with
    | some u => u.assigneeId
    | none => ""
  let aName1 := match r.userChat with
    | some u =>
      match u.assignee with
      | some a => refName a
      | none => ""
    | none => ""
  let aId2 := if aId1 = "" then e.assigneeId else aId1
  let aName3 := match r.assignee with
    | some a => if aName1 = "" then refName a else aName1
    | none => aName1
  let aId3 := match r.assignee with
    | some a => if aId2 = "" then a.id else aId2
    | none => aId2
  let aName4 := if aId3 ≠ "" ∧ aName3 = "" then findManagerName r.managers aId3 else aName3
  let p5 : String × String :=
    match r.userChat with
    | some u =>
      if aName4 = "" ∧ u.managerIds ≠ [] then
        match r.managers.find? (fun m => m.id == u.managerIds.headD "") with
        | some m => (refName m, u.managerIds.headD "")
        | none => (aName4, aId3)
      else (aName4, aId3)
    | none => (aName4, aId3)
  let aName6 := if p5.1 = "" ∧ p5.2 ≠ "" then
      match mc p5.2 with
      | some n => n
      | none => p5.1
    else p5.1
  let team := if aName6 ≠ "" then memberToTeam aName6 else ""
  (aName6, p5.2, team)

/-- The chat dictionary built by the customer-message branch of
`process_message` (src/main.py lines 1046-1070): customer name fallback
chain, plain-text placeholder, `createdAt`-or-now timestamp, channel name,
tags and extracted assignee information. -/
def buildChatData (e : MsgEntity) (r : Refers) (mc : String → Option String) (now : Int) :
    ChatData :=
  let a := extractAssigneeUser e r mc
  { id := e.chatId
    customerName :=
      strOr (strOr (strOr (match r.user with | some u => u.name | none => "")
                          (match r.userChat with | some u => u.name | none => ""))
                   (match r.user with | some u => u.profileName | none => ""))
            "익명"
    lastMessage := strOr e.plainText "(메시지 없음)"
    timestamp := if e.createdAt = 0 then now else e.createdAt
    channel := r.channelName
    tags := match r.userChat with | some u => u.tags | none => []
    assignee := a.1
    assigneeId := a.2.1
    team := a.2.2 }

/-- The reply-author name of the manager/bot branch of `process_message`
(src/main.py lines 1076-1087): `refers.manager` name chain with the
fallbacks `'Bot'` and `'Unknown'`. -/
def managerReplyName (r : Refers) (personType : String) : String :=
  let n := match r.manager with
    | some m => strOr (strOr m.name m.displayName) m.username
    | none => ""
  if n = "" then (if personType = "bot" then "Bot" else "Unknown") else n

/-- `process_message` (src/main.py lines 942-1101): drop events without a
`chatId`; store customer messages via `save_chat`; on a manager/bot reply
remove the conversation via `remove_chat`, passing the cached assignee. -/
def process_message (s : State) (e : MsgEntity) (r : Refers) (now : Int) : State × List BMsg :=
  if e.chatId = "" then (s, [])
  else if e.personType = "user" then
    save_chat s (buildChatData e r s.managerCache now)
  else if e.personType = "manager" ∨ e.personType = "bot" then
    let aName : Option String :=
      match s.chatCache e.chatId with
      | some d => some d.assignee
      | none => none
    remove_chat s e.chatId (some (managerReplyName r e.personType)) aName false
  else (s, [])

/-- `process_user_chat` (src/main.py lines 1103-1165): on `opened`, refresh
the cached assignee information of an already-cached conversation; on
`closed` / `resolved` / `snoozed`, remove the conversation. -/
def process_user_chat (s : State) (e : UserChatEntity) (r : Refers) : State × List BMsg :=
  if e.id = "" then (s, [])
  else
    let aId := if e.assigneeId = "" ∧ e.managerIds ≠ [] then e.managerIds.headD "" else e.assigneeId
    let aName1 := if aId ≠ "" then findManagerName r.managers aId else ""
    let aName := if aName1 = "" ∧ aId ≠ "" then
        match s.managerCache aId with
        | some n => n
        | none => aName1
      else aName1
    let team := if aName ≠ "" then memberToTeam aName else ""
    if e.state = "opened" then
      (match s.chatCache e.id with
       | some d =>
         if aName ≠ "" then
           let d1 := { d with assignee := aName, assigneeId := aId,
                              team := if team = "" then "미배정" else team }
           { s with chatCache := upd s.chatCache e.id (some d1) }
         else s
       | none => s, [])
    else if e.state = "closed" ∨ e.state = "resolved" ∨ e.state = "snoozed" then
      remove_chat s e.id none none false
    else (s, [])

/-- A parsed webhook body, discriminated on its `type` field as in
`handle_webhook`. -/
inductive Payload where
  | message (e : MsgEntity) (r : Refers)
  | userChat (e : UserChatEntity) (r : Refers)
  | other
deriving DecidableEq

/-- The event dispatch of `handle_webhook` (src/main.py lines 931-934),
applied at arrival time `now`; unknown event types are ignored. -/
def dispatchPayload (s : State) (p : Payload) (now : Int) : State × List BMsg :=
  match p with
  | .message e r => process_message s e r now
  | .userChat e r => process_user_chat s e r
  | .other => (s, [])

/-- Runs a sequence of ingested webhook events (each paired with its
arrival time) through the monitor. -/
def runList (s : State) (es : List (Payload × Int)) : State :=
  es.foldl (fun acc ev => (dispatchPayload acc ev.1 ev.2).1) s

/-- Membership of a conversation ID in the pending store
(`unanswered_chats`). -/
def isPending (s : State) (c : String) : Bool := decide (c ∈ s.pendingList)

/-- The expiry test of `_cleanup_old_data` (src/main.py lines 556-570) for
one conversation: stored data exists and its timestamp is more than 12
hours (43200 seconds) before `now`; conversations without stored data are
skipped by the sweep. -/
def expiredB (s : State) (now : Int) (c : String) : Bool :=
  match s.redisChat c with
  | some d => decide (now - d.timestamp > 43200)
  | none => false

/-- The sweep loop of `_cleanup_old_data` over a snapshot of
`unanswered_chats`: each conversation whose data is older than 12 hours is
removed with `remove_chat(..., cleanup=True)`. -/
def cleanupLoop (now : Int) : State → List String → State × List BMsg
  | s, [] => (s, [])
  | s, c :: rest =>
    if expiredB s now c then
      let r := remove_chat s c none none true
      let r2 := cleanupLoop now r.1 rest
      (r2.1, r.2 ++ r2.2)
    else cleanupLoop now s rest

/-- `_cleanup_old_data` (src/main.py lines 548-580), one periodic sweep. -/
def cleanup_old_data (s : State) (now : Int) : State × List BMsg :=
  cleanupLoop now s s.pendingList

/-- An entry of the list produced by `get_all_chats`: the stored chat data
enriched with the computed wait fields. -/
structure ChatView where
  id : String
  customerName : String
  lastMessage : String
  timestamp : Int
  channel : String
  tags : List String
  assignee : String
  assigneeId : String
  team : String
  waitMinutes : Int
  waitSeconds : Int
deriving DecidableEq

/-- The descending-wait-time order used to sort the dashboard list. -/
def viewLe (a b : ChatView) : Prop := b.waitSeconds ≤ a.waitSeconds

instance : DecidableRel viewLe := fun a b => Int.decLe b.waitSeconds a.waitSeconds

instance : IsTotal ChatView viewLe := ⟨fun a b => le_total b.waitSeconds a.waitSeconds⟩

instance : IsTrans ChatView viewLe := ⟨fun _ _ _ hab hbc => le_trans hbc hab⟩

/-- `get_all_chats` (src/main.py lines 797-876) applied to the list of
cached chats: wait-time computation, 12-hour filter, assignee/team
defaulting, and a stable sort by descending wait seconds (Python
`list.sort(key=..., reverse=True)` is modelled by the stable
`insertionSort`).  `int(x)` truncation toward zero is `Int.tdiv`. -/
def get_all_chats (chats : List ChatData) (now : Int) : List ChatView :=
  let valid := chats.filterMap (fun d =>
    let ws := now - d.timestamp
    if ws > 43200 then none
    else some {
      id := d.id
      customerName := d.customerName
      lastMessage := d.lastMessage
      timestamp := d.timestamp
      channel := d.channel
      tags := d.tags
      assignee := if d.assignee = "" then "미배정" else d.assignee
      assigneeId := d.assigneeId
      team := if d.team = "" then "미배정" else d.team
      waitMinutes := max 0 (Int.tdiv ws 60)
      waitSeconds := max 0 ws })
  valid.insertionSort viewLe

/-- The descending-count order used to sort rankings. -/
def rankGe (a b : String × Nat) : Prop := b.2 ≤ a.2

instance : DecidableRel rankGe := fun a b => Nat.decLe b.2 a.2

instance : IsTotal (String × Nat) rankGe := ⟨fun a b => le_total b.2 a.2⟩

instance : IsTrans (String × Nat) rankGe := ⟨fun _ _ _ hab hbc => le_trans hbc hab⟩

/-- `get_rankings` (src/main.py lines 878-914) applied to the entry lists
of the `ranking:daily` hash (as (date, manager, count) triples, the split
of the `date:manager` key) and the `ranking:total` hash: filter today's
entries, exclude `bot` case-insensitively from both, sort by descending
count and keep the top ten. -/
def get_rankings (today : String) (dailyH : List (String × String × Nat))
    (totalH : List (String × Nat)) : List (String × Nat) × List (String × Nat) :=
  let dailyData := (dailyH.filter (fun e => e.1 == today && lowerStr e.2.1 != "bot")).map (fun e => e.2)
  let totalData := totalH.filter (fun e => lowerStr e.1 != "bot")
  ((dailyData.insertionSort rankGe).take 10, (totalData.insertionSort rankGe).take 10)

/-- The hard-coded webhook token of src/main.py line 17. -/
def WEBHOOK_TOKEN : String := "80ab2d11835f44b89010c8efa5eec4b4"

/-- An HTTP request to the webhook endpoint: the `token` query parameters
and the parsed JSON body (`none` models a body that fails to parse). -/
structure Request where
  tokens : List String
  body : Option Payload
deriving DecidableEq

/-- `handle_webhook` (src/main.py lines 916-940): 401 without the token,
500 on an unparsable body, otherwise dispatch and a 200 `ok` response.
The response is modelled as (status, body text). -/
def handle_webhook (s : State) (req : Request) (now : Int) :
    State × (Nat × String) × List BMsg :=
  if WEBHOOK_TOKEN ∈ req.tokens then
    match req.body with
    | some p => ((dispatchPayload s p now).1, (200, "ok"), (dispatchPayload s p now).2)
    | none => (s, (500, ""), [])
  else (s, (401, ""), [])

/-! ### The src/server.py variant -/

/-- A chat record stored by the src/server.py variant (lines 278-284). -/
structure SChat where
  id : String
  customerName : String
  lastMessage : String
  timestamp : Int
  waitMinutes : Int
deriving DecidableEq

/-- A WebSocket message of the src/server.py variant. -/
inductive SMsg where
  | newChat (chat : SChat)
  | chatAnswered (chatId : String)
deriving DecidableEq

/-- The src/server.py store: Redis `chat:{id}` keys and `unanswered_chats`
membership, or equivalently the memory-mode `memory_cache`, collapsed to
one map. -/
structure SState where
  cache : String → Option SChat

/-- The empty src/server.py store. -/
def serverInit : SState := ⟨fun _ => none⟩

/-- `save_chat` of src/server.py (lines 61-97): unconditional store and an
unconditional `new_chat` broadcast — no de-duplication. -/
def server_save_chat (s : SState) (d : SChat) : SState × List SMsg :=
  ({ cache := upd s.cache d.id (some d) }, [SMsg.newChat d])

/-- `remove_chat` of src/server.py (lines 99-122): unconditional delete and
`chat_answered` broadcast. -/
def server_remove_chat (s : SState) (c : String) : SState × List SMsg :=
  ({ cache := upd s.cache c none }, [SMsg.chatAnswered c])

/-- The chat record built by `process_message` of src/server.py
(lines 264-284). -/
def serverBuildChat (e : MsgEntity) (r : Refers) (now : Int) : SChat :=
  { id := e.chatId
    customerName :=
      strOr (strOr (strOr (match r.user with | some u => u.name | none => "")
                          (match r.user with | some u => u.username | none => ""))
                   (match r.userChat with | some u => u.name | none => ""))
            "익명"
    lastMessage := strOr e.plainText "(메시지 없음)"
    timestamp := if e.createdAt = 0 then now else e.createdAt
    waitMinutes := 0 }

/-- `process_message` of src/server.py (lines 215-302). -/
def server_process_message (s : SState) (e : MsgEntity) (r : Refers) (now : Int) :
    SState × List SMsg :=
  if e.chatId = "" then (s, [])
  else if e.personType = "user" then server_save_chat s (serverBuildChat e r now)
  else if e.personType = "manager" ∨ e.personType = "bot" then server_remove_chat s e.chatId
  else (s, [])

/-- `process_user_chat` of src/server.py (lines 304-323): removal on
`closed` / `resolved` only. -/
def server_process_user_chat (s : SState) (e : UserChatEntity) : SState × List SMsg :=
  if (e.state = "closed" ∨ e.state = "resolved") ∧ e.id ≠ "" then server_remove_chat s e.id
  else (s, [])

/-- The accepted-token list of src/server.py line 186 (with
`WEBHOOK_TOKEN = 'AJUNG'` from its default environment). -/
def serverValidTokens : List String :=
  ["AJUNG", "ajung", "80ab2d11835f44b89010c8efa5eec4b4", "AJUNG"]

/-- The case-insensitive token check of src/server.py line 188. -/
def serverTokenOk (tokens : List String) : Bool :=
  tokens.any (fun t => (serverValidTokens.map (fun v => upperStr v)).contains (upperStr t))

/-- The event dispatch of `handle_webhook` of src/server.py
(lines 200-205). -/
def serverDispatch (s : SState) (p : Payload) (now : Int) : SState × List SMsg :=
  match p with
  | .message e r => server_process_message s e r now
  | .userChat e _ => server_process_user_chat s e
  | .other => (s, [])

/-- `handle_webhook` of src/server.py (lines 177-213). -/
def server_handle_webhook (s : SState) (req : Request) (now : Int) :
    SState × (Nat × String) × List SMsg :=
  if serverTokenOk req.tokens then
    match req.body with
    | some p => ((serverDispatch s p now).1, (200, "ok"), (serverDispatch s p now).2)
    | none => (s, (500, ""), [])
  else (s, (401, ""), [])

/-! ### The WebSocket fan-out -/

/-- A viewer connection; `alive = false` models a connection whose send
raises (it disconnected). -/
structure Conn where
  cid : Nat
  alive : Bool
deriving DecidableEq

/-- The broadcast loop of src/main.py lines 1267-1285 / src/server.py lines
401-419: one send attempt per connection; a successful send delivers the
message once, a failed send discards the connection without retrying.
Returns (delivered (connection, message) pairs, surviving connections). -/
def broadcast_run (msg : String) : List Conn → List (Nat × String) × List Conn
  | [] => ([], [])
  | c :: rest =>
    let p := broadcast_run msg rest
    if c.alive then ((c.cid, msg) :: p.1, c :: p.2) else p

/-! ### Specification-side definitions for claim C1 -/

/-- Written from the claim's words: whether the most recent observed
message event carrying this conversation ID was authored by the end user
(personType `user`, as opposed to a manager or bot). -/
def lastMsgUser (es : List (Payload × Int)) (c : String) : Bool :=
  es.foldl (fun b ev =>
    match ev.1 with
    | .message e _ => if e.chatId ≠ "" ∧ e.chatId = c then decide (e.personType = "user") else b
    | _ => b) false

/-- Written from the claim's words: the timestamp of the most recent
observed message for this conversation (its `createdAt`, or its arrival
time when `createdAt` is missing). -/
def lastMsgTime (es : List (Payload × Int)) (c : String) : Option Int :=
  es.foldl (fun t ev =>
    match ev.1 with
    | .message e _ => if e.chatId ≠ "" ∧ e.chatId = c then
        some (if e.createdAt = 0 then ev.2 else e.createdAt) else t
    | _ => t) none

/-- Written from the claim's words: the conversation has a most recent
observed message and has not exceeded the 12-hour expiry window at `now`. -/
def notExpiredAt (es : List (Payload × Int)) (now : Int) (c : String) : Bool :=
  match lastMsgTime es c with
  | some t => decide (now - t ≤ 43200)
  | none => false

/-- Claim C1 exactly as stated: for every sequence of ingested webhook
events, a conversation ID appears in the pending store if and only if the
most recent observed message for it was authored by the end user and the
conversation has not exceeded its expiry window. -/
def claimC1Stated : Prop :=
  ∀ (es : List (Payload × Int)) (now : Int) (c : String),
    isPending (runList monInit es) c = true ↔
      (lastMsgUser es c = true ∧ notExpiredAt es now c = true)

/-- The amended membership specification, one webhook event at a time: a
user-authored message (with a conversation ID) makes the conversation
pending, a manager or bot reply or a `closed`/`resolved`/`snoozed` state
change removes it, every other webhook event leaves membership unchanged. -/
def pendingSpecStep (c : String) (b : Bool) (ev : Payload × Int) : Bool :=
  match ev.1 with
  | .message e _ =>
    if e.chatId = "" then b
    else if e.chatId = c then
      (if e.personType = "user" then true
       else if e.personType = "manager" ∨ e.personType = "bot" then false
       else b)
    else b
  | .userChat e _ =>
    if e.id ≠ "" ∧ e.id = c ∧ (e.state = "closed" ∨ e.state = "resolved" ∨ e.state = "snoozed")
    then false else b
  | .other => b

/-- The amended membership specification over a whole event sequence. -/
def pendingSpecRun (es : List (Payload × Int)) (c : String) : Bool :=
  es.foldl (pendingSpecStep c) false

/-- The per-conversation duplicate-check set that `save_chat` consults: the
in-memory hash set when loaded, otherwise the Redis one. -/
def effKnown (s : State) (c : String) : List (String × Int) :=
  match s.chatMessages c with
  | some l => l
  | none => s.redisMsgs c

/-- The reachable-state invariant used for claim C1: the pending index has
no duplicates, and a conversation with a recorded message hash is
pending. -/
def StateInv (s : State) : Prop :=
  s.pendingList.Nodup ∧ ∀ c, effKnown s c ≠ [] → c ∈ s.pendingList

/-! ### Concrete example data for witnesses and counterexamples -/

/-- A concrete customer chat used by the C2 witness. -/
def c2chat : ChatData := ⟨"c1", "고객", "hello", 1000, "", [], "", "", ""⟩

/-- A concrete chat record for the src/server.py variant, used by the C2
counterexample. -/
def c2sd : SChat := ⟨"c1", "고객", "hello", 1000, 0⟩

/-- A concrete customer-message entity used by the C1 counterexample. -/
def c1entity : MsgEntity := ⟨"c1", "user", "hi", 1000, ""⟩

/-- A concrete customer chat used by the C7 witness. -/
def c7chat : ChatData := ⟨"c1", "n", "hi", 1000, "", [], "", "", ""⟩

/-- A concrete customer chat used by the C3 witness. -/
def c3chat : ChatData := ⟨"c1", "n", "hi", 1000, "", [], "", "", ""⟩

/-- A concrete bot-reply entity used by the C9 witness. -/
def c9entity : MsgEntity := ⟨"c1", "bot", "auto", 2000, ""⟩

/-- Concrete viewer connections used by the C4 witness. -/
def c4conns : List Conn := [⟨1, true⟩, ⟨2, false⟩, ⟨3, true⟩]

/-! ### Helper lemmas -/

theorem upd_self {α : Type} (f : String → α) (k : String) (v : α) : upd f k v k = v := by
  simp [upd]

theorem upd_other {α : Type} (f : String → α) (k : String) (v : α) {x : String} (h : x ≠ k) :
    upd f k v x = f x := by
  simp [upd, h]

theorem remove_chat_state (s : State) (c : String) (m a : Option String) (cl : Bool) :
    ((remove_chat s c m a cl).1.pendingList = s.pendingList.erase c)
    ∧ ((remove_chat s c m a cl).1.redisChat = upd s.redisChat c none)
    ∧ ((remove_chat s c m a cl).1.redisMsgs = upd s.redisMsgs c [])
    ∧ ((remove_chat s c m a cl).1.chatCache
        = if c ∈ s.pendingList then upd s.chatCache c none else s.chatCache)
    ∧ ((remove_chat s c m a cl).1.chatMessages
        = if c ∈ s.pendingList then upd s.chatMessages c none else s.chatMessages)
    ∧ ((remove_chat s c m a cl).1.managerCache = s.managerCache)
    ∧ ((remove_chat s c m a cl).1.answeredTotal
        = if cl then s.answeredTotal else s.answeredTotal + 1)
    ∧ ((remove_chat s c m a cl).1.answeredToday
        = if cl then s.answeredToday else s.answeredToday + 1)
    ∧ ((remove_chat s c m a cl).1.rankDaily
        = if cl then s.rankDaily else
            if incrCond m a then bump s.rankDaily (m.getD "") else s.rankDaily)
    ∧ ((remove_chat s c m a cl).1.rankTotal
        = if cl then s.rankTotal else
            if incrCond m a then bump s.rankTotal (m.getD "") else s.rankTotal)
    ∧ ((remove_chat s c m a cl).2
        = if c ∈ s.pendingList then [BMsg.chatAnswered c (if cl then none else m)] else []) := by
  unfold remove_chat
  cases cl <;> by_cases h1 : c ∈ s.pendingList <;> by_cases h3 : incrCond m a <;>
    simp [h1, h3]

/-! ### Claim C2 -/

/-- C2, counterexample: the claim as stated fails on the src/server.py
variant of `save_chat`, which it cites.  Concretely, delivering the chat
`c2sd` twice (same conversation ID `c1`, same last-message text `hello`
and timestamp 1000, i.e. the same message fingerprint) makes the second
`save_chat` call broadcast a second `new_chat` WebSocket message instead
of sending nothing. -/
theorem C2_counterexample :
    (server_save_chat (server_save_chat serverInit c2sd).1 c2sd).2 = [SMsg.newChat c2sd]
    ∧ (server_save_chat (server_save_chat serverInit c2sd).1 c2sd).2 ≠ [] :=
  ⟨rfl, by decide⟩

/-- C2, amended: in src/main.py, a second `save_chat` call whose message
hash is already recorded in the conversation's in-memory hash set returns
with the state (store, caches and statistics) completely unchanged and
broadcasts no WebSocket message. -/
theorem C2_save_idempotent (s : State) (d : ChatData) (l : List (String × Int))
    (h1 : s.chatMessages d.id = some l) (h2 : (d.lastMessage, d.timestamp) ∈ l) :
    save_chat s d = (s, []) := by
  unfold save_chat
  simp only [h1, Option.getD_some]
  simp [h2]

/-- Witness for C2: after a first delivery of `c2chat` from the empty
state, the hash of its message is recorded, and the theorem applies to the
re-delivery. -/
theorem C2_save_idempotent_witness :
    (save_chat monInit c2chat).1.chatMessages c2chat.id = some [("hello", 1000)]
    ∧ (c2chat.lastMessage, c2chat.timestamp) ∈ [(("hello" : String), (1000 : Int))]
    ∧ save_chat (save_chat monInit c2chat).1 c2chat = ((save_chat monInit c2chat).1, []) :=
  ⟨by decide, by decide,
   C2_save_idempotent (save_chat monInit c2chat).1 c2chat [("hello", 1000)]
     (by decide) (by decide)⟩

/-! ### Claim C7 -/

/-- C7: `remove_chat` deletes the in-memory cache and message-hash entries
and broadcasts a `chat_answered` message exactly when the conversation was
a member of `unanswered_chats` (the `srem` result is positive); called
with a non-pending ID it leaves both in-memory caches unchanged and
broadcasts nothing. -/
theorem C7_remove_chat_guarded (s : State) (c : String) (m a : Option String) :
    (c ∉ s.pendingList →
      (remove_chat s c m a false).1.chatCache = s.chatCache
      ∧ (remove_chat s c m a false).1.chatMessages = s.chatMessages
      ∧ (remove_chat s c m a false).2 = [])
    ∧ (c ∈ s.pendingList →
      (remove_chat s c m a false).1.chatCache c = none
      ∧ (remove_chat s c m a false).1.chatMessages c = none
      ∧ (remove_chat s c m a false).2 = [BMsg.chatAnswered c m]) := by
  obtain ⟨-, -, -, h4, h5, -, -, -, -, -, h11⟩ := remove_chat_state s c m a false
  constructor
  · intro h
    rw [h4, h5, h11]
    simp [h]
  · intro h
    rw [h4, h5, h11]
    simp [h, upd]

/-- Witness for C7: the non-member case on the empty state with ID `zz`,
and the member case on the state holding the single pending conversation
`c1`. -/
theorem C7_remove_chat_guarded_witness :
    ("zz" ∉ monInit.pendingList
      ∧ ((remove_chat monInit "zz" (some "Kim") none false).1.chatCache = monInit.chatCache
         ∧ (remove_chat monInit "zz" (some "Kim") none false).1.chatMessages = monInit.chatMessages
         ∧ (remove_chat monInit "zz" (some "Kim") none false).2 = []))
    ∧ ("c1" ∈ (save_chat monInit c7chat).1.pendingList
      ∧ ((remove_chat (save_chat monInit c7chat).1 "c1" (some "Kim") none false).1.chatCache "c1" = none
         ∧ (remove_chat (save_chat monInit c7chat).1 "c1" (some "Kim") none false).1.chatMessages "c1" = none
         ∧ (remove_chat (save_chat monInit c7chat).1 "c1" (some "Kim") none false).2
             = [BMsg.chatAnswered "c1" (some "Kim")])) :=
  ⟨⟨by decide, (C7_remove_chat_guarded monInit "zz" (some "Kim") none).1 (by decide)⟩,
   ⟨by decide,
    (C7_remove_chat_guarded (save_chat monInit c7chat).1 "c1" (some "Kim") none).2 (by decide)⟩⟩

/-! ### Claim C5 -/

/-- C5: the webhook endpoint is token-guarded.  In both src/main.py and
src/server.py, a request without an accepted token gets status 401 and
processes no event (state unchanged, nothing broadcast); with an accepted
token and a parsable JSON body, the event is handed to the dispatcher and
the response is 200 with body `ok`. -/
theorem C5_webhook_token_guard (s : State) (ss : SState) (req : Request) (now : Int) :
    (WEBHOOK_TOKEN ∉ req.tokens → handle_webhook s req now = (s, (401, ""), []))
    ∧ (∀ p, WEBHOOK_TOKEN ∈ req.tokens → req.body = some p →
        handle_webhook s req now
          = ((dispatchPayload s p now).1, (200, "ok"), (dispatchPayload s p now).2))
    ∧ (serverTokenOk req.tokens = false → server_handle_webhook ss req now = (ss, (401, ""), []))
    ∧ (∀ p, serverTokenOk req.tokens = true → req.body = some p →
        server_handle_webhook ss req now
          = ((serverDispatch ss p now).1, (200, "ok"), (serverDispatch ss p now).2)) := by
  refine ⟨fun h => ?_, fun p h hb => ?_, fun h => ?_, fun p h hb => ?_⟩
  · simp [handle_webhook, h]
  · simp [handle_webhook, h, hb]
  · simp [server_handle_webhook, h]
  · simp [server_handle_webhook, h, hb]

/-- Witness for C5: a request with a wrong token is rejected with 401 and
no state change; a request with the hard-coded token and an (ignored-type)
body is accepted with 200 `ok`. -/
theorem C5_webhook_token_guard_witness :
    WEBHOOK_TOKEN ∉ ["nope"]
    ∧ handle_webhook monInit ⟨["nope"], none⟩ 0 = (monInit, (401, ""), [])
    ∧ WEBHOOK_TOKEN ∈ [WEBHOOK_TOKEN]
    ∧ handle_webhook monInit ⟨[WEBHOOK_TOKEN], some Payload.other⟩ 0
        = ((dispatchPayload monInit Payload.other 0).1, (200, "ok"),
           (dispatchPayload monInit Payload.other 0).2)
    ∧ serverTokenOk ["nope"] = false
    ∧ server_handle_webhook serverInit ⟨["nope"], none⟩ 0 = (serverInit, (401, ""), []) :=
  ⟨by decide,
   (C5_webhook_token_guard monInit serverInit ⟨["nope"], none⟩ 0).1 (by decide),
   by decide,
   (C5_webhook_token_guard monInit serverInit ⟨[WEBHOOK_TOKEN], some Payload.other⟩ 0).2.1
     Payload.other (by decide) rfl,
   by decide,
   (C5_webhook_token_guard monInit serverInit ⟨["nope"], none⟩ 0).2.2.1 (by decide)⟩

/-! ### Claim C6 -/

/-- C6: the event normalizer of both `process_message` implementations
reads the conversation ID from `entity.chatId`, the sender role from
`entity.personType`, the text from `entity.plainText` and the timestamp
from `entity.createdAt`; a payload without a conversation ID is ignored
entirely, an empty text becomes the placeholder, and a missing timestamp
is replaced by the current time. -/
theorem C6_message_normalizer :
    (∀ (s : State) (e : MsgEntity) (r : Refers) (now : Int),
      e.chatId = "" → process_message s e r now = (s, []))
    ∧ (∀ (e : MsgEntity) (r : Refers) (mc : String → Option String) (now : Int),
      (buildChatData e r mc now).id = e.chatId
      ∧ (buildChatData e r mc now).lastMessage
          = (if e.plainText = "" then "(메시지 없음)" else e.plainText)
      ∧ (buildChatData e r mc now).timestamp = (if e.createdAt = 0 then now else e.createdAt))
    ∧ (∀ (s : State) (e : MsgEntity) (r : Refers) (now : Int),
      e.chatId ≠ "" → e.personType = "user" →
      process_message s e r now = save_chat s (buildChatData e r s.managerCache now))
    ∧ (∀ (s : State) (e : MsgEntity) (r : Refers) (now : Int),
      e.chatId ≠ "" → (e.personType = "manager" ∨ e.personType = "bot") →
      process_message s e r now
        = remove_chat s e.chatId (some (managerReplyName r e.personType))
            (match s.chatCache e.chatId with | some d => some d.assignee | none => none) false)
    ∧ (∀ (ss : SState) (e : MsgEntity) (r : Refers) (now : Int),
      e.chatId = "" → server_process_message ss e r now = (ss, []))
    ∧ (∀ (e : MsgEntity) (r : Refers) (now : Int),
      (serverBuildChat e r now).id = e.chatId
      ∧ (serverBuildChat e r now).lastMessage
          = (if e.plainText = "" then "(메시지 없음)" else e.plainText)
      ∧ (serverBuildChat e r now).timestamp = (if e.createdAt = 0 then now else e.createdAt))
    ∧ (∀ (ss : SState) (e : MsgEntity) (r : Refers) (now : Int),
      e.chatId ≠ "" → e.personType = "user" →
      server_process_message ss e r now = server_save_chat ss (serverBuildChat e r now)) := by
  refine ⟨?_, ?_, ?_, ?_, ?_, ?_, ?_⟩
  · intro s e r now h
    simp [process_message, h]
  · intro e r mc now
    exact ⟨rfl, rfl, rfl⟩
  · intro s e r now h hu
    simp [process_message, h, hu]
  · intro s e r now h hm
    rcases hm with hm | hm <;> simp [process_message, h, hm]
  · intro ss e r now h
    simp [server_process_message, h]
  · intro e r now
    exact ⟨rfl, rfl, rfl⟩
  · intro ss e r now h hu
    simp [server_process_message, h, hu]

/-- Witness for C6: the implication hypotheses discharged on concrete
payloads — a payload without a conversation ID is dropped, a customer
message goes to `save_chat`, and a manager reply goes to `remove_chat`. -/
theorem C6_message_normalizer_witness :
    (let e0 : MsgEntity := ⟨"", "user", "hi", 5, ""⟩
     e0.chatId = "" ∧ process_message monInit e0 emptyRefers 9 = (monInit, []))
    ∧ (let e1 : MsgEntity := ⟨"c1", "user", "", 0, ""⟩
       (e1.chatId ≠ "" ∧ e1.personType = "user")
       ∧ process_message monInit e1 emptyRefers 9
           = save_chat monInit (buildChatData e1 emptyRefers monInit.managerCache 9))
    ∧ (let e2 : MsgEntity := ⟨"c1", "manager", "re", 7, ""⟩
       (e2.chatId ≠ "" ∧ (e2.personType = "manager" ∨ e2.personType = "bot"))
       ∧ process_message monInit e2 emptyRefers 9
           = remove_chat monInit "c1" (some (managerReplyName emptyRefers "manager")) none false) :=
  ⟨⟨by decide, (C6_message_normalizer).1 monInit ⟨"", "user", "hi", 5, ""⟩ emptyRefers 9 rfl⟩,
   ⟨⟨by decide, rfl⟩,
    (C6_message_normalizer).2.2.1 monInit ⟨"c1", "user", "", 0, ""⟩ emptyRefers 9 (by decide) rfl⟩,
   ⟨⟨by decide, Or.inl rfl⟩,
    (C6_message_normalizer).2.2.2.1 monInit ⟨"c1", "manager", "re", 7, ""⟩ emptyRefers 9
      (by decide) (Or.inl rfl)⟩⟩

/-! ### Claim C9 -/

/-- C9: the answer-ranking counters are bumped by `remove_chat` only for a
named manager whose name is not `bot` case-insensitively and who is not
the conversation's recorded assignee; a reply by the assignee themselves
or by a bot (whose reply carries the fallback name `Bot` when the webhook
has no manager reference) leaves every ranking counter unchanged; and
`get_rankings` excludes `bot` entries from both returned rankings. -/
theorem C9_ranking_rules :
    (∀ (s : State) (c : String) (m : String) (a : Option String),
      lowerStr m = "bot" →
      (remove_chat s c (some m) a false).1.rankDaily = s.rankDaily
      ∧ (remove_chat s c (some m) a false).1.rankTotal = s.rankTotal)
    ∧ (∀ (s : State) (c : String) (m : String),
      (remove_chat s c (some m) (some m) false).1.rankDaily = s.rankDaily
      ∧ (remove_chat s c (some m) (some m) false).1.rankTotal = s.rankTotal)
    ∧ (∀ (s : State) (c : String) (m a : Option String) (x : String),
      ((remove_chat s c m a false).1.rankDaily x ≠ s.rankDaily x
        ∨ (remove_chat s c m a false).1.rankTotal x ≠ s.rankTotal x) →
      m = some x ∧ x ≠ "" ∧ lowerStr x ≠ "bot" ∧ (optTruthy a = false ∨ x ≠ a.getD ""))
    ∧ (∀ (s : State) (e : MsgEntity) (r : Refers) (now : Int),
      e.personType = "bot" → r.manager = none →
      (process_message s e r now).1.rankDaily = s.rankDaily
      ∧ (process_message s e r now).1.rankTotal = s.rankTotal)
    ∧ (∀ (today : String) (dailyH : List (String × String × Nat)) (totalH : List (String × Nat)),
      (∀ p ∈ (get_rankings today dailyH totalH).1, lowerStr p.1 ≠ "bot")
      ∧ (∀ p ∈ (get_rankings today dailyH totalH).2, lowerStr p.1 ≠ "bot")) := by
  have hRank : ∀ (s : State) (c : String) (m a : Option String),
      ¬ incrCond m a →
      (remove_chat s c m a false).1.rankDaily = s.rankDaily
      ∧ (remove_chat s c m a false).1.rankTotal = s.rankTotal := by
    intro s c m a h
    obtain ⟨-, -, -, -, -, -, -, -, h9, h10, -⟩ := remove_chat_state s c m a false
    rw [h9, h10]
    simp [h]
  refine ⟨?_, ?_, ?_, ?_, ?_⟩
  · intro s c m a hm
    apply hRank
    intro hc
    exact hc.2.1 hm
  · intro s c m
    apply hRank
    rintro ⟨h1, -, h3⟩
    rcases h3 with h3 | ⟨-, h3⟩
    · have hm : m = "" := by
        by_contra hne
        simp [optTruthy, hne] at h3
      exact h1 hm
    · exact h3 rfl
  · intro s c m a x hx
    obtain ⟨-, -, -, -, -, -, -, -, h9, h10, -⟩ := remove_chat_state s c m a false
    by_cases hc : incrCond m a
    · rw [h9, h10] at hx
      simp only [if_neg Bool.false_ne_true, hc, if_pos, if_true] at hx
      have hxm : x = m.getD "" := by
        by_contra hne
        simp [bump, hne] at hx
      obtain ⟨h1, h2, h3⟩ := hc
      refine ⟨?_, ?_, ?_, ?_⟩
      · cases m with
        | none => exact absurd rfl h1
        | some mv =>
          simp only [Option.getD_some] at hxm
          rw [hxm]
      · rw [hxm]; exact h1
      · rw [hxm]; exact h2
      · rcases h3 with h3 | ⟨-, h3⟩
        · exact Or.inl h3
        · exact Or.inr (by rw [hxm]; exact h3)
    · obtain ⟨e1, e2⟩ := hRank s c m a hc
      rw [e1, e2] at hx
      simp at hx
  · intro s e r now hbot hmgr
    by_cases hid : e.chatId = ""
    · simp [process_message, hid]
    · rw [show process_message s e r now
            = remove_chat s e.chatId (some (managerReplyName r e.personType))
                (match s.chatCache e.chatId with | some d => some d.assignee | none => none)
                false from by simp [process_message, hid, hbot]]
      apply hRank
      rintro ⟨-, h2, -⟩
      rw [hbot] at h2
      exact h2 (by simp [managerReplyName, hmgr]; decide)
  · intro today dailyH totalH
    constructor
    · intro p hp
      unfold get_rankings at hp
      have hp1 := List.mem_of_mem_take hp
      rw [List.mem_insertionSort] at hp1
      obtain ⟨e, he, rfl⟩ := List.mem_map.mp hp1
      have hf := (List.mem_filter.mp he).2
      simp only [Bool.and_eq_true, bne_iff_ne, ne_eq] at hf
      exact hf.2
    · intro p hp
      unfold get_rankings at hp
      have hp1 := List.mem_of_mem_take hp
      rw [List.mem_insertionSort] at hp1
      have hf := (List.mem_filter.mp hp1).2
      simp only [bne_iff_ne, ne_eq] at hf
      exact hf

/-- Witness for C9: a reply named `BoT`, a reply by the recorded assignee,
and a bot reply without a manager reference all leave the rankings of the
empty state unchanged. -/
theorem C9_ranking_rules_witness :
    (lowerStr "BoT" = "bot"
     ∧ (remove_chat monInit "c1" (some "BoT") none false).1.rankDaily = monInit.rankDaily
     ∧ (remove_chat monInit "c1" (some "BoT") none false).1.rankTotal = monInit.rankTotal)
    ∧ ((remove_chat monInit "c1" (some "Kim") (some "Kim") false).1.rankDaily = monInit.rankDaily
       ∧ (remove_chat monInit "c1" (some "Kim") (some "Kim") false).1.rankTotal = monInit.rankTotal)
    ∧ (c9entity.personType = "bot"
       ∧ (process_message monInit c9entity emptyRefers 2000).1.rankDaily = monInit.rankDaily
       ∧ (process_message monInit c9entity emptyRefers 2000).1.rankTotal = monInit.rankTotal) := by
  have h := C9_ranking_rules
  exact ⟨⟨by decide, h.1 monInit "c1" "BoT" none (by decide)⟩,
         h.2.1 monInit "c1" "Kim",
         ⟨rfl, h.2.2.2.1 monInit c9entity emptyRefers 2000 rfl rfl⟩⟩

/-! ### Claim C8 -/

/-- C8: the list returned by `get_all_chats` contains no conversation
whose computed wait exceeds 43200 seconds, every entry has non-negative
wait fields and non-empty assignee and team (defaulting to 미배정), and
the list is sorted by descending `waitSeconds`. -/
theorem C8_get_all_chats_shape (chats : List ChatData) (now : Int) :
    (∀ v ∈ get_all_chats chats now,
      v.waitSeconds ≤ 43200 ∧ 0 ≤ v.waitMinutes ∧ 0 ≤ v.waitSeconds
      ∧ v.assignee ≠ "" ∧ v.team ≠ "")
    ∧ (get_all_chats chats now).Sorted viewLe := by
  constructor
  · intro v hv
    unfold get_all_chats at hv
    rw [List.mem_insertionSort] at hv
    obtain ⟨d, hd, he⟩ := List.mem_filterMap.mp hv
    by_cases hws : now - d.timestamp > 43200
    · rw [if_pos hws] at he
      exact absurd he (by simp)
    · rw [if_neg hws] at he
      push_neg at hws
      obtain rfl := Option.some_inj.mp he
      refine ⟨max_le (by norm_num) hws, le_max_left 0 _, le_max_left 0 _, ?_, ?_⟩
      · dsimp only
        split_ifs with h
        · decide
        · exact h
      · dsimp only
        split_ifs with h
        · decide
        · exact h
  · exact List.sorted_insertionSort viewLe _

/-- Witness for C8: the shape properties instantiated on a concrete
one-element chat list. -/
theorem C8_get_all_chats_shape_witness :
    (∀ v ∈ get_all_chats [⟨"c1", "n", "m", 1000, "", [], "", "", ""⟩] 41000,
      v.waitSeconds ≤ 43200 ∧ 0 ≤ v.waitMinutes ∧ 0 ≤ v.waitSeconds
      ∧ v.assignee ≠ "" ∧ v.team ≠ "")
    ∧ (get_all_chats [⟨"c1", "n", "m", 1000, "", [], "", "", ""⟩] 41000).Sorted viewLe :=
  C8_get_all_chats_shape [⟨"c1", "n", "m", 1000, "", [], "", "", ""⟩] 41000

/-! ### Claim C4 -/

theorem broadcast_run_eq (msg : String) (conns : List Conn) :
    broadcast_run msg conns
      = ((conns.filter (fun c => c.alive)).map (fun c => (c.cid, msg)),
         conns.filter (fun c => c.alive)) := by
  induction conns with
  | nil => rfl
  | cons c rest ih => cases hc : c.alive <;> simp [broadcast_run, hc, ih]

/-- C4: a broadcast of one event delivers the message to each currently
connected viewer at most once; a viewer whose send fails is removed from
the connection set with no retry (no delivery carries its ID), and its
failure does not prevent delivery to every other live viewer. -/
theorem C4_broadcast_semantics (msg : String) (conns : List Conn)
    (hnd : (conns.map Conn.cid).Nodup) :
    ((broadcast_run msg conns).1 = (conns.filter (fun c => c.alive)).map (fun c => (c.cid, msg)))
    ∧ ((broadcast_run msg conns).2 = conns.filter (fun c => c.alive))
    ∧ (∀ c ∈ conns, (broadcast_run msg conns).1.countP (fun p => p.1 == c.cid) ≤ 1)
    ∧ (∀ c ∈ conns, c.alive = true → (c.cid, msg) ∈ (broadcast_run msg conns).1)
    ∧ (∀ c ∈ conns, c.alive = false →
        (∀ p ∈ (broadcast_run msg conns).1, p.1 ≠ c.cid)
        ∧ c ∉ (broadcast_run msg conns).2) := by
  have h1 : (broadcast_run msg conns).1
      = (conns.filter (fun c => c.alive)).map (fun c => (c.cid, msg)) := by
    rw [broadcast_run_eq]
  have h2 : (broadcast_run msg conns).2 = conns.filter (fun c => c.alive) := by
    rw [broadcast_run_eq]
  refine ⟨h1, h2, ?_, ?_, ?_⟩
  · intro c hc
    rw [h1, List.countP_map]
    have hle : List.countP ((fun p => p.1 == c.cid) ∘ fun x => (x.cid, msg))
        (conns.filter (fun c => c.alive))
        ≤ List.countP ((fun p => p.1 == c.cid) ∘ fun x => (x.cid, msg)) conns :=
      List.Sublist.countP_le _ (List.filter_sublist conns)
    refine le_trans hle ?_
    have heq : List.countP ((fun p => p.1 == c.cid) ∘ fun x => (x.cid, msg)) conns
        = List.count c.cid (conns.map Conn.cid) := by
      rw [List.count_eq_countP, List.countP_map]
      rfl
    rw [heq]
    exact List.nodup_iff_count_le_one.mp hnd c.cid
  · intro c hc hal
    rw [h1]
    exact List.mem_map.mpr ⟨c, List.mem_filter.mpr ⟨hc, hal⟩, rfl⟩
  · intro c hc hal
    constructor
    · intro p hp
      rw [h1] at hp
      obtain ⟨c2, hc2, rfl⟩ := List.mem_map.mp hp
      obtain ⟨hc2m, hc2a⟩ := List.mem_filter.mp hc2
      intro heq
      have hcc : c2 = c := List.inj_on_of_nodup_map hnd hc2m hc heq
      rw [hcc, hal] at hc2a
      exact Bool.false_ne_true hc2a
    · rw [h2]
      intro hmem
      have := (List.mem_filter.mp hmem).2
      rw [hal] at this
      exact Bool.false_ne_true this

/-- Witness for C4: three concrete connections with distinct IDs, one of
which is dead; the dead connection receives nothing and is pruned, the
other two each receive the message once. -/
theorem C4_broadcast_semantics_witness :
    (c4conns.map Conn.cid).Nodup
    ∧ (∀ c ∈ c4conns, (broadcast_run "m" c4conns).1.countP (fun p => p.1 == c.cid) ≤ 1)
    ∧ (∀ c ∈ c4conns, c.alive = false →
        (∀ p ∈ (broadcast_run "m" c4conns).1, p.1 ≠ c.cid)
        ∧ c ∉ (broadcast_run "m" c4conns).2) := by
  have h := C4_broadcast_semantics "m" c4conns (by decide)
  exact ⟨by decide, h.2.2.1, h.2.2.2.2⟩

/-! ### Claim C3 -/

theorem cleanupLoop_spec (now : Int) (L : List String) :
    ∀ (s : State), L.Nodup → (∀ x ∈ L, x ∈ s.pendingList) → s.pendingList.Nodup →
    (∀ x, x ∈ (cleanupLoop now s L).1.pendingList
        ↔ (x ∈ s.pendingList ∧ ¬(x ∈ L ∧ expiredB s now x = true)))
    ∧ (cleanupLoop now s L).1.answeredTotal = s.answeredTotal
    ∧ (cleanupLoop now s L).1.answeredToday = s.answeredToday
    ∧ (cleanupLoop now s L).1.rankDaily = s.rankDaily
    ∧ (cleanupLoop now s L).1.rankTotal = s.rankTotal
    ∧ (∀ b ∈ (cleanupLoop now s L).2, ∃ x, b = BMsg.chatAnswered x none) := by
  induction L with
  | nil =>
    intro s _ _ _
    simp [cleanupLoop]
  | cons c rest ih =>
    intro s hnd hsub hpnd
    have hcmem : c ∈ s.pendingList := hsub c (List.mem_cons_self c rest)
    by_cases hexp : expiredB s now c = true
    · simp only [cleanupLoop, if_pos hexp]
      obtain ⟨p1, p2, -, -, -, -, p7, p8, p9, p10, p11⟩ := remove_chat_state s c none none true
      have hnd2 : rest.Nodup := (List.nodup_cons.mp hnd).2
      have hcnr : c ∉ rest := (List.nodup_cons.mp hnd).1
      have hsub2 : ∀ x ∈ rest, x ∈ (remove_chat s c none none true).1.pendingList := by
        intro x hx
        rw [p1]
        have hxs := hsub x (List.mem_cons_of_mem c hx)
        have hxc : x ≠ c := fun h => hcnr (h ▸ hx)
        exact (List.mem_erase_of_ne hxc).mpr hxs
      have hpnd2 : (remove_chat s c none none true).1.pendingList.Nodup := by
        rw [p1]; exact hpnd.erase c
      obtain ⟨q1, q2, q3, q4, q5, q6⟩ := ih (remove_chat s c none none true).1 hnd2 hsub2 hpnd2
      have hexpst : ∀ x, x ≠ c →
          expiredB (remove_chat s c none none true).1 now x = expiredB s now x := by
        intro x hxc
        unfold expiredB
        rw [p2, upd_other _ _ _ hxc]
      refine ⟨?_, ?_, ?_, ?_, ?_, ?_⟩
      · intro x
        rw [q1 x, p1]
        by_cases hxc : x = c
        · subst hxc
          constructor
          · rintro ⟨hmem, -⟩
            exact absurd ((hpnd.mem_erase_iff).mp hmem).1 (by simp)
          · rintro ⟨-, hno⟩
            exact absurd ⟨List.mem_cons_self _ _, hexp⟩ hno
        · rw [List.mem_erase_of_ne hxc, hexpst x hxc]
          constructor
          · rintro ⟨hmem, hno⟩
            refine ⟨hmem, ?_⟩
            rintro ⟨hinL, hx⟩
            rcases List.mem_cons.mp hinL with h | h
            · exact hxc h
            · exact hno ⟨h, hx⟩
          · rintro ⟨hmem, hno⟩
            refine ⟨hmem, ?_⟩
            rintro ⟨hinR, hx⟩
            exact hno ⟨List.mem_cons_of_mem c hinR, hx⟩
      · rw [q2, p7]; rfl
      · rw [q3, p8]; rfl
      · rw [q4, p9]; rfl
      · rw [q5, p10]; rfl
      · intro b hb
        rcases List.mem_append.mp hb with hb | hb
        · rw [p11, if_pos hcmem] at hb
          simp only [List.mem_singleton] at hb
          exact ⟨c, by rw [hb]; rfl⟩
        · exact q6 b hb
    · simp only [cleanupLoop, if_neg hexp]
      obtain ⟨q1, q2, q3, q4, q5, q6⟩ :=
        ih s (List.nodup_cons.mp hnd).2 (fun x hx => hsub x (List.mem_cons_of_mem c hx)) hpnd
      refine ⟨?_, q2, q3, q4, q5, q6⟩
      intro x
      rw [q1 x]
      constructor
      · rintro ⟨hmem, hno⟩
        refine ⟨hmem, ?_⟩
        rintro ⟨hinL, hx⟩
        rcases List.mem_cons.mp hinL with h | h
        · subst h; exact hexp hx
        · exact hno ⟨h, hx⟩
      · rintro ⟨hmem, hno⟩
        exact ⟨hmem, fun hp => hno ⟨List.mem_cons_of_mem c hp.1, hp.2⟩⟩

/-- C3: one run of the cleanup sweep removes exactly the stored
conversations whose timestamp is more than 12 hours (43200 seconds) old;
it leaves the answered statistics and both ranking counters untouched, and
every message it broadcasts is a plain `chat_answered` notification with
no manager (the removal is reported as silently answered, not as an
error). -/
theorem C3_cleanup_sweep (s : State) (now : Int) (hnd : s.pendingList.Nodup) :
    (∀ x, x ∈ (cleanup_old_data s now).1.pendingList
        ↔ (x ∈ s.pendingList ∧ expiredB s now x = false))
    ∧ (cleanup_old_data s now).1.answeredTotal = s.answeredTotal
    ∧ (cleanup_old_data s now).1.answeredToday = s.answeredToday
    ∧ (cleanup_old_data s now).1.rankDaily = s.rankDaily
    ∧ (cleanup_old_data s now).1.rankTotal = s.rankTotal
    ∧ (∀ b ∈ (cleanup_old_data s now).2, ∃ x, b = BMsg.chatAnswered x none) := by
  obtain ⟨q1, q2, q3, q4, q5, q6⟩ := cleanupLoop_spec now s.pendingList s hnd (fun _ hx => hx) hnd
  refine ⟨?_, q2, q3, q4, q5, q6⟩
  intro x
  rw [show cleanup_old_data s now = cleanupLoop now s s.pendingList from rfl, q1 x]
  constructor
  · rintro ⟨hmem, hno⟩
    refine ⟨hmem, ?_⟩
    cases hx : expiredB s now x
    · rfl
    · exact absurd ⟨hmem, hx⟩ hno
  · rintro ⟨hmem, hff⟩
    refine ⟨hmem, ?_⟩
    rintro ⟨-, hx⟩
    rw [hff] at hx
    exact Bool.false_ne_true hx

/-- Witness for C3: a state holding the single pending conversation `c1`
stored at time 1000; at `now = 50000` (more than 12 hours later) the sweep
removes it and leaves the statistics unchanged. -/
theorem C3_cleanup_sweep_witness :
    (save_chat monInit c3chat).1.pendingList.Nodup
    ∧ ("c1" ∈ (cleanup_old_data (save_chat monInit c3chat).1 50000).1.pendingList
        ↔ ("c1" ∈ (save_chat monInit c3chat).1.pendingList
           ∧ expiredB (save_chat monInit c3chat).1 50000 "c1" = false))
    ∧ (cleanup_old_data (save_chat monInit c3chat).1 50000).1.answeredTotal
        = (save_chat monInit c3chat).1.answeredTotal := by
  have h := C3_cleanup_sweep (save_chat monInit c3chat).1 50000 (by decide)
  exact ⟨by decide, h.1 "c1", h.2.1⟩

/-! ### Claim C1 -/

theorem save_chat_state (s : State) (d : ChatData) :
    ((d.lastMessage, d.timestamp) ∈ effKnown s d.id →
      (save_chat s d).1.pendingList = s.pendingList
      ∧ (∀ x, effKnown (save_chat s d).1 x = effKnown s x))
    ∧ ((d.lastMessage, d.timestamp) ∉ effKnown s d.id →
      (save_chat s d).1.pendingList
        = (if d.id ∈ s.pendingList then s.pendingList else d.id :: s.pendingList)
      ∧ (∀ x, x ≠ d.id → effKnown (save_chat s d).1 x = effKnown s x)
      ∧ effKnown (save_chat s d).1 d.id
          = (d.lastMessage, d.timestamp) :: effKnown s d.id) := by
  rcases hm : s.chatMessages d.id with _ | l
  · have hek : effKnown s d.id = s.redisMsgs d.id := by unfold effKnown; rw [hm]
    constructor
    · intro hmem
      rw [hek] at hmem
      constructor
      · unfold save_chat
        simp [hm, upd, hmem]
      · intro x
        unfold save_chat
        unfold effKnown
        by_cases hx : x = d.id
        · subst hx
          simp [hm, upd, hmem]
        · simp [hm, upd, hmem, hx]
    · intro hmem
      rw [hek] at hmem
      refine ⟨?_, ?_, ?_⟩
      · unfold save_chat
        simp [hm, upd, hmem]
      · intro x hx
        unfold save_chat
        unfold effKnown
        simp [hm, upd, hmem, hx]
      · unfold save_chat
        unfold effKnown
        simp [hm, upd, hmem]
  · have hek : effKnown s d.id = l := by unfold effKnown; rw [hm]
    constructor
    · intro hmem
      rw [hek] at hmem
      constructor
      · unfold save_chat
        simp [hm, hmem]
      · intro x
        unfold save_chat
        simp [hm, hmem]
    · intro hmem
      rw [hek] at hmem
      refine ⟨?_, ?_, ?_⟩
      · unfold save_chat
        simp [hm, hmem]
      · intro x hx
        unfold save_chat
        unfold effKnown
        simp [hm, upd, hmem, hx]
      · unfold save_chat
        unfold effKnown
        simp [hm, upd, hmem]

theorem save_chat_inv_pending (s : State) (d : ChatData) (hI : StateInv s) :
    StateInv (save_chat s d).1
    ∧ ∀ x, isPending (save_chat s d).1 x = (isPending s x || decide (x = d.id)) := by
  obtain ⟨hskip, hstore⟩ := save_chat_state s d
  by_cases hmem : (d.lastMessage, d.timestamp) ∈ effKnown s d.id
  · obtain ⟨hp, hk⟩ := hskip hmem
    have hne : effKnown s d.id ≠ [] := by
      intro h0
      rw [h0] at hmem
      exact List.not_mem_nil _ hmem
    have hdid : d.id ∈ s.pendingList := hI.2 d.id hne
    refine ⟨⟨by rw [hp]; exact hI.1, fun c hc => by rw [hp]; exact hI.2 c (by rw [← hk c]; exact hc)⟩, ?_⟩
    intro x
    rw [isPending, isPending, hp]
    by_cases hx : x = d.id
    · subst hx
      simp [hdid]
    · simp [hx]
  · obtain ⟨hp, hk1, hk2⟩ := hstore hmem
    constructor
    · constructor
      · rw [hp]
        split_ifs with h
        · exact hI.1
        · exact List.nodup_cons.mpr ⟨h, hI.1⟩
      · intro c hc
        rw [hp]
        by_cases hx : c = d.id
        · subst hx
          split_ifs with h
          · exact h
          · exact List.mem_cons_self _ _
        · rw [hk1 c hx] at hc
          have hcm := hI.2 c hc
          split_ifs with h
          · exact hcm
          · exact List.mem_cons_of_mem _ hcm
    · intro x
      rw [isPending, isPending, hp]
      by_cases hx : x = d.id
      · subst hx
        split_ifs with h <;> simp [h]
      · split_ifs with h
        · simp [hx]
        · simp [List.mem_cons, hx]

theorem remove_chat_inv_pending (s : State) (c : String) (m a : Option String) (cl : Bool)
    (hI : StateInv s) :
    StateInv (remove_chat s c m a cl).1
    ∧ ∀ x, isPending (remove_chat s c m a cl).1 x = (isPending s x && !(decide (x = c))) := by
  obtain ⟨p1, p2, p3, p4, p5, -, -, -, -, -, -⟩ := remove_chat_state s c m a cl
  constructor
  · constructor
    · rw [p1]
      exact hI.1.erase c
    · intro x hx
      by_cases hxc : x = c
      · subst hxc
        exfalso
        unfold effKnown at hx
        rw [p5, p3] at hx
        by_cases hmem : x ∈ s.pendingList
        · rw [if_pos hmem] at hx
          rw [upd_self, upd_self] at hx
          exact hx rfl
        · rw [if_neg hmem] at hx
          rcases hcm : s.chatMessages x with _ | l
          · rw [hcm, upd_self] at hx
            exact hx rfl
          · rw [hcm] at hx
            have : effKnown s x ≠ [] := by
              unfold effKnown
              rw [hcm]
              exact hx
            exact hmem (hI.2 x this)
      · have hk : effKnown (remove_chat s c m a cl).1 x = effKnown s x := by
          unfold effKnown
          rw [p5, p3]
          split_ifs with h
          · rw [upd_other _ _ _ hxc, upd_other _ _ _ hxc]
          · rw [upd_other _ _ _ hxc]
        rw [p1, List.mem_erase_of_ne hxc]
        exact hI.2 x (hk ▸ hx)
  · intro x
    rw [isPending, isPending, p1]
    by_cases hxc : x = c
    · subst hxc
      simp [hI.1.mem_erase_iff]
    · simp [List.mem_erase_of_ne hxc, hxc]

theorem process_user_chat_opened (s : State) (e : UserChatEntity) (r : Refers)
    (hid : e.id ≠ "") (hop : e.state = "opened") :
    (process_user_chat s e r).1.pendingList = s.pendingList
    ∧ (process_user_chat s e r).1.chatMessages = s.chatMessages
    ∧ (process_user_chat s e r).1.redisMsgs = s.redisMsgs := by
  unfold process_user_chat
  rw [if_neg hid, if_pos hop]
  rcases s.chatCache e.id with _ | d <;> dsimp only <;> try exact ⟨rfl, rfl, rfl⟩
  split_ifs <;> exact ⟨rfl, rfl, rfl⟩

theorem dispatch_step (s : State) (p : Payload) (now : Int) (hI : StateInv s) :
    StateInv (dispatchPayload s p now).1
    ∧ ∀ c, isPending (dispatchPayload s p now).1 c = pendingSpecStep c (isPending s c) (p, now) := by
  cases p with
  | other => exact ⟨hI, fun _ => rfl⟩
  | message e r =>
    dsimp only [dispatchPayload]
    by_cases hid : e.chatId = ""
    · have hpm : process_message s e r now = (s, []) := by simp [process_message, hid]
      rw [hpm]
      exact ⟨hI, fun c => by simp [pendingSpecStep, hid]⟩
    · by_cases hu : e.personType = "user"
      · have hpm : process_message s e r now
            = save_chat s (buildChatData e r s.managerCache now) := by
          simp [process_message, hid, hu]
        obtain ⟨hI2, hiso⟩ := save_chat_inv_pending s (buildChatData e r s.managerCache now) hI
        rw [hpm]
        refine ⟨hI2, fun c => ?_⟩
        rw [hiso c]
        have hbid : (buildChatData e r s.managerCache now).id = e.chatId := rfl
        rw [hbid]
        simp only [pendingSpecStep, hid, if_neg, hu, if_pos, if_true]
        by_cases hc : e.chatId = c
        · simp [hc, hid]
        · have hc2 : ¬ c = e.chatId := fun h => hc h.symm
          simp [hc, hc2, hid]
      · by_cases hmb : e.personType = "manager" ∨ e.personType = "bot"
        · have hpm : process_message s e r now
              = remove_chat s e.chatId (some (managerReplyName r e.personType))
                  (match s.chatCache e.chatId with | some d => some d.assignee | none => none)
                  false := by
            rcases hmb with h | h <;> simp [process_message, hid, hu, h]
          obtain ⟨hI2, hiso⟩ := remove_chat_inv_pending s e.chatId
            (some (managerReplyName r e.personType))
            (match s.chatCache e.chatId with | some d => some d.assignee | none => none)
            false hI
          rw [hpm]
          refine ⟨hI2, fun c => ?_⟩
          rw [hiso c]
          by_cases hc : e.chatId = c
          · subst hc
            rcases hmb with h | h <;> simp [pendingSpecStep, hid, hu, h]
          · have hc2 : ¬ c = e.chatId := fun h => hc h.symm
            simp [pendingSpecStep, hid, hc, hc2]
        · have hpm : process_message s e r now = (s, []) := by
            simp [process_message, hid, hu, hmb]
          rw [hpm]
          refine ⟨hI, fun c => ?_⟩
          simp only [pendingSpecStep, hid, hu, hmb, if_neg, if_false]
          split_ifs <;> rfl
  | userChat e r =>
    dsimp only [dispatchPayload]
    by_cases hid : e.id = ""
    · have hpm : process_user_chat s e r = (s, []) := by simp [process_user_chat, hid]
      rw [hpm]
      exact ⟨hI, fun c => by simp [pendingSpecStep, hid]⟩
    · by_cases hop : e.state = "opened"
      · obtain ⟨h1, h2, h3⟩ := process_user_chat_opened s e r hid hop
        refine ⟨⟨by rw [h1]; exact hI.1, fun c hc => ?_⟩, fun c => ?_⟩
        · rw [h1]
          apply hI.2 c
          unfold effKnown at hc ⊢
          rw [h2, h3] at hc
          exact hc
        · rw [isPending, isPending, h1]
          simp [pendingSpecStep, hop]
      · by_cases hcl : e.state = "closed" ∨ e.state = "resolved" ∨ e.state = "snoozed"
        · have hpu : process_user_chat s e r = remove_chat s e.id none none false := by
            unfold process_user_chat
            rw [if_neg hid]
            rcases hcl with h | h | h <;> rw [h] <;> simp
          obtain ⟨hI2, hiso⟩ := remove_chat_inv_pending s e.id none none false hI
          rw [hpu]
          refine ⟨hI2, fun c => ?_⟩
          rw [hiso c]
          by_cases hc : e.id = c
          · subst hc
            rcases hcl with h | h | h <;> simp [pendingSpecStep, hid, h]
          · have hc2 : ¬ c = e.id := fun h => hc h.symm
            simp [pendingSpecStep, hid, hc, hc2]
        · have hpu : process_user_chat s e r = (s, []) := by
            unfold process_user_chat
            rw [if_neg hid]
            rw [if_neg hop, if_neg hcl]
          rw [hpu]
          refine ⟨hI, fun c => ?_⟩
          show isPending s c = pendingSpecStep c (isPending s c) (Payload.userChat e r, now)
          dsimp only [pendingSpecStep]
          rw [if_neg]
          rintro ⟨-, -, h3⟩
          exact hcl h3

theorem runList_isPending (es : List (Payload × Int)) :
    ∀ (s : State), StateInv s →
    ∀ c, isPending (runList s es) c = es.foldl (pendingSpecStep c) (isPending s c) := by
  induction es with
  | nil => intro s _ c; rfl
  | cons ev rest ih =>
    intro s hI c
    obtain ⟨hI2, hstep⟩ := dispatch_step s ev.1 ev.2 hI
    have hrun : runList s (ev :: rest) = runList (dispatchPayload s ev.1 ev.2).1 rest := rfl
    rw [hrun, List.foldl_cons, ih _ hI2 c, hstep c]

theorem monInit_inv : StateInv monInit :=
  ⟨List.nodup_nil, fun _ hc => absurd rfl hc⟩

/-- C1, amended: over every sequence of ingested webhook events, a
conversation ID appears in the pending store if and only if the most
recent store-affecting webhook event for it made it pending — a
user-authored message (with a conversation ID) makes it pending, a
manager or bot reply or a `closed`/`resolved`/`snoozed` state change
removes it, and every other webhook event leaves membership unchanged.
The 12-hour expiry is not part of this equivalence because it is enforced
only by the periodic cleanup sweep, which is not a webhook event: between
sweeps an expired conversation remains in the store. -/
theorem C1_pending_iff (es : List (Payload × Int)) (c : String) :
    isPending (runList monInit es) c = pendingSpecRun es c := by
  have h := runList_isPending es monInit monInit_inv c
  rw [h]
  rfl

/-- Witness for C1: the amended equivalence instantiated on a concrete
one-event sequence. -/
theorem C1_pending_iff_witness :
    isPending (runList monInit [(Payload.message c1entity emptyRefers, 1000)]) "c1"
      = pendingSpecRun [(Payload.message c1entity emptyRefers, 1000)] "c1" :=
  C1_pending_iff [(Payload.message c1entity emptyRefers, 1000)] "c1"

/-- C1, counterexample: the claim as stated is false.  After the single
webhook event delivering a customer message for conversation `c1` with
timestamp 1000, the ID `c1` is in the pending store at `now = 100000`
even though `100000 - 1000 > 43200`: the conversation has exceeded its
12-hour expiry window (no cleanup sweep has run), so the stated
equivalence `pending ↔ (last message by user ∧ not expired)` fails. -/
theorem C1_counterexample : ¬ claimC1Stated := by
  intro h
  have h1 := (h [(Payload.message c1entity emptyRefers, 1000)] 100000 "c1").mp (by decide)
  exact absurd h1.2 (by decide)

end ChannelMon
